import Mathlib

/-!
Shallow embedding of `src/MultiParadigmPython.py` (class `StatisticsCalculator`).

The calculator state is `(data, sorted_data, cache)`; every method of the class
becomes a Lean function threading this state explicitly.  Python `int` data is
modelled by `ℤ`; Python float results of exact integer arithmetic (`sum/len`,
`(a+b)/2`) are modelled by `ℚ`; `math.sqrt` is modelled by `Real.sqrt`.
Python `raise ValueError(msg)` becomes an `Except` error carrying the
exception class and the message.
-/

deriving instance DecidableEq for Except

namespace StatCalc

/-- A raised Python exception: exception class name plus message. -/
structure PyErr where
  exnClass : String
  msg : String
deriving DecidableEq

/-- Error raised by `mean` on empty data (source line 60). -/
def meanEmptyErr : PyErr := ⟨"ValueError", "Cannot calculate mean: data is empty"⟩

/-- Error raised by `median` on empty data (source line 68). -/
def medianEmptyErr : PyErr := ⟨"ValueError", "Cannot calculate median: data is empty"⟩

/-- Error raised by `mode` on empty data (source line 85). -/
def modeEmptyErr : PyErr := ⟨"ValueError", "Cannot calculate mode: data is empty"⟩

/-- Error raised by `standard_deviation` on empty data (source line 110). -/
def stdEmptyErr : PyErr := ⟨"ValueError", "Cannot calculate standard deviation: data is empty"⟩

/-- Error raised by sample `standard_deviation` when n < 2 (source line 116). -/
def stdFewErr : PyErr :=
  ⟨"ValueError", "Cannot calculate sample standard deviation with less than 2 data points"⟩

/-- Error raised by `range` on empty data (source line 125). -/
def rangeEmptyErr : PyErr := ⟨"ValueError", "Cannot calculate range: data is empty"⟩

/-- The statistic cache `self._cache`: a map whose only possible keys are
`mean`, `median` and `mode` (the only keys the source ever stores). -/
structure StatCache where
  mean : Option ℚ
  median : Option ℚ
  mode : Option (List ℤ)
deriving DecidableEq

/-- The empty cache `{}`. -/
def StatCache.empty : StatCache := ⟨none, none, none⟩

/-- The state of one `StatisticsCalculator` object:
`_data`, `_sorted_data`, `_cache`. -/
structure StatisticsCalculator where
  data : List ℤ
  sorted_data : Option (List ℤ)
  cache : StatCache
deriving DecidableEq

/-- Constructor `__init__(data=None)`. -/
def init (data : Option (List ℤ)) : StatisticsCalculator :=
  ⟨data.getD [], none, StatCache.empty⟩

/-- The `data` property setter: replace `_data`, drop `_sorted_data`, clear `_cache`. -/
def set_data (_s : StatisticsCalculator) (newData : List ℤ) : StatisticsCalculator :=
  ⟨newData, none, StatCache.empty⟩

/-- Mutator `add_value(value)`: append one value, drop `_sorted_data`, clear `_cache`. -/
def add_value (s : StatisticsCalculator) (v : ℤ) : StatisticsCalculator :=
  ⟨s.data ++ [v], none, StatCache.empty⟩

/-- Mutator `add_values(values)`: extend by a list, drop `_sorted_data`, clear `_cache`. -/
def add_values (s : StatisticsCalculator) (vs : List ℤ) : StatisticsCalculator :=
  ⟨s.data ++ vs, none, StatCache.empty⟩

/-- Mutator `clear_data()`: empty `_data`, drop `_sorted_data`, clear `_cache`. -/
def clear_data (_s : StatisticsCalculator) : StatisticsCalculator :=
  ⟨[], none, StatCache.empty⟩

/-- Python `sorted` on integers: ascending stable sort. -/
def pySorted (l : List ℤ) : List ℤ := List.insertionSort (· ≤ ·) l

/-- Method `_get_sorted_data()`: return the memoized sorted list, computing it on a miss. -/
def get_sorted_data (s : StatisticsCalculator) : List ℤ × StatisticsCalculator :=
  match s.sorted_data with
  | some sd => (sd, s)
  | none => (pySorted s.data, { s with sorted_data := some (pySorted s.data) })

/-- The value `sum(self._data) / len(self._data)` (exact rational). -/
def freshMean (l : List ℤ) : ℚ := (l.sum : ℚ) / (l.length : ℚ)

/-- Reader `mean()`: cached; raises on empty data. -/
def mean (s : StatisticsCalculator) : Except PyErr ℚ × StatisticsCalculator :=
  match s.cache.mean with
  | some m => (.ok m, s)
  | none =>
    if s.data = [] then (.error meanEmptyErr, s)
    else (.ok (freshMean s.data),
          { s with cache := { s.cache with mean := some (freshMean s.data) } })

/-- The median of an already sorted list, as computed by the source:
`mid = n // 2`; even `n` averages `sorted[mid-1]` and `sorted[mid]`,
odd `n` takes `sorted[mid]`. -/
def medianOfSorted (sd : List ℤ) : ℚ :=
  let n := sd.length
  let mid := n / 2
  if n % 2 = 0 then (((sd.getD (mid - 1) 0 : ℤ) : ℚ) + ((sd.getD mid 0 : ℤ) : ℚ)) / 2
  else ((sd.getD mid 0 : ℤ) : ℚ)

/-- The median recomputed from scratch on the current data. -/
def freshMedian (l : List ℤ) : ℚ := medianOfSorted (pySorted l)

/-- Reader `median()`: cached; raises on empty data; reads `_get_sorted_data()`. -/
def median (s : StatisticsCalculator) : Except PyErr ℚ × StatisticsCalculator :=
  match s.cache.median with
  | some m => (.ok m, s)
  | none =>
    if s.data = [] then (.error medianEmptyErr, s)
    else
      let p := get_sorted_data s
      let m := medianOfSorted p.1
      (.ok m, { p.2 with cache := { p.2.cache with median := some m } })

/-- The value `max(freq_counter.values())`: the largest multiplicity in `l`. -/
def maxFreq (l : List ℤ) : ℕ := (l.map (fun x => l.count x)).foldr max 0

/-- The mode list computed by the source: distinct values of maximal
multiplicity, sorted ascending. -/
def modeList (l : List ℤ) : List ℤ :=
  pySorted (l.dedup.filter (fun x => decide (l.count x = maxFreq l)))

/-- Reader `mode()`: cached; raises on empty data. -/
def mode (s : StatisticsCalculator) : Except PyErr (List ℤ) × StatisticsCalculator :=
  match s.cache.mode with
  | some m => (.ok m, s)
  | none =>
    if s.data = [] then (.error modeEmptyErr, s)
    else (.ok (modeList s.data),
          { s with cache := { s.cache with mode := some (modeList s.data) } })

/-- The value `sum((x - mean_val) ** 2 for x in self._data)`. -/
def varianceSum (l : List ℤ) (m : ℚ) : ℚ := (l.map (fun x : ℤ => ((x : ℚ) - m) ^ 2)).sum

/-- Reader `standard_deviation(population)` up to the final `math.sqrt`: the exact
control flow of the source, returning the variance (the square of the
result) on success.  The `population and n == 0` guard and the order of the
checks are kept exactly as written. -/
def stdDevVariance (s : StatisticsCalculator) (population : Bool) :
    Except PyErr ℚ × StatisticsCalculator :=
  if s.data = [] then (.error stdEmptyErr, s)
  else
    let n := s.data.length
    if population = true ∧ n = 0 then (.ok 0, s)
    else if population = false ∧ n < 2 then (.error stdFewErr, s)
    else
      match mean s with
      | (.ok m, s1) =>
        (.ok (varianceSum s1.data m / (if population then (n : ℚ) else (n : ℚ) - 1)), s1)
      | (.error e, s1) => (.error e, s1)

/-- Variant of `stdDevVariance` with the `population and n == 0` guard deleted;
used to show that guard is dead code. -/
def stdDevVarianceNoGuard (s : StatisticsCalculator) (population : Bool) :
    Except PyErr ℚ × StatisticsCalculator :=
  if s.data = [] then (.error stdEmptyErr, s)
  else
    let n := s.data.length
    if population = false ∧ n < 2 then (.error stdFewErr, s)
    else
      match mean s with
      | (.ok m, s1) =>
        (.ok (varianceSum s1.data m / (if population then (n : ℚ) else (n : ℚ) - 1)), s1)
      | (.error e, s1) => (.error e, s1)

/-- Reader `standard_deviation(population)`: `math.sqrt` applied to the variance. -/
noncomputable def standard_deviation (s : StatisticsCalculator) (population : Bool) :
    Except PyErr ℝ × StatisticsCalculator :=
  match stdDevVariance s population with
  | (.ok v, s1) => (.ok (Real.sqrt (v : ℝ)), s1)
  | (.error e, s1) => (.error e, s1)

/-- Reader `range()`: `sorted_data[-1] - sorted_data[0]`; raises on empty data. -/
def range (s : StatisticsCalculator) : Except PyErr ℤ × StatisticsCalculator :=
  if s.data = [] then (.error rangeEmptyErr, s)
  else
    let p := get_sorted_data s
    (.ok (p.1.getLastD 0 - p.1.headD 0), p.2)

/-- The dictionary returned by `summary()`. -/
structure Summary where
  mean : Option ℚ
  median : Option ℚ
  mode : Option (List ℤ)
  std_dev_sample : Option ℝ
  std_dev_population : Option ℝ
  range : Option ℤ
  count : ℕ
  min : Option ℤ
  max : Option ℤ

/-- One `try: ... except ValueError: ... = None` block of `summary()`:
a `ValueError` is absorbed into `none`, any other exception propagates. -/
def tryStat {α : Type} (r : Except PyErr α × StatisticsCalculator) :
    Except PyErr (Option α) × StatisticsCalculator :=
  match r with
  | (.ok v, s) => (.ok (some v), s)
  | (.error e, s) => if e.exnClass = "ValueError" then (.ok none, s) else (.error e, s)

/-- Method `summary()`: builds all fields in source order, absorbing `ValueError`s
field by field; `count` is `len(self._data)`; `min`/`max` come from the
sorted view when data is non-empty and are `None` otherwise. -/
noncomputable def summary (s : StatisticsCalculator) :
    Except PyErr Summary × StatisticsCalculator :=
  match tryStat (mean s) with
  | (.error e, s1) => (.error e, s1)
  | (.ok mv, s1) =>
    match tryStat (median s1) with
    | (.error e, s2) => (.error e, s2)
    | (.ok dv, s2) =>
      match tryStat (mode s2) with
      | (.error e, s3) => (.error e, s3)
      | (.ok ov, s3) =>
        match tryStat (standard_deviation s3 false) with
        | (.error e, s4) => (.error e, s4)
        | (.ok sv, s4) =>
          match tryStat (standard_deviation s4 true) with
          | (.error e, s5) => (.error e, s5)
          | (.ok pv, s5) =>
            match tryStat (range s5) with
            | (.error e, s6) => (.error e, s6)
            | (.ok rv, s6) =>
              if s6.data = [] then
                (.ok ⟨mv, dv, ov, sv, pv, rv, s6.data.length, none, none⟩, s6)
              else
                let p := get_sorted_data s6
                (.ok ⟨mv, dv, ov, sv, pv, rv, p.2.data.length,
                      some (p.1.headD 0), some (p.1.getLastD 0)⟩, p.2)

/-- The statement `∀ x, o = some x → p x`, decidably. -/
def OptsOk {α : Type} (o : Option α) (p : α → Prop) : Prop :=
  ∀ x, o = some x → p x

instance {α : Type} (o : Option α) (p : α → Prop) [DecidablePred p] :
    Decidable (OptsOk o p) :=
  match o with
  | none => isTrue (fun x h => nomatch h)
  | some a =>
    if h : p a then isTrue (fun x hx => (Option.some.inj hx) ▸ h)
    else isFalse (fun hall => h (hall a rfl))

/-- The cache-consistency invariant: a memoized sorted view is the sort of the
current data, and every cached statistic equals the statistic recomputed
fresh from the current data (which must then be non-empty). -/
def Inv (s : StatisticsCalculator) : Prop :=
  OptsOk s.sorted_data (fun sd => sd = pySorted s.data) ∧
  OptsOk s.cache.mean (fun m => s.data ≠ [] ∧ m = freshMean s.data) ∧
  OptsOk s.cache.median (fun m => s.data ≠ [] ∧ m = freshMedian s.data) ∧
  OptsOk s.cache.mode (fun m => s.data ≠ [] ∧ m = modeList s.data)

instance (s : StatisticsCalculator) : Decidable (Inv s) := by
  unfold Inv; infer_instance

/-- One public API call, as a relation between the state before and after. -/
inductive Step : StatisticsCalculator → StatisticsCalculator → Prop
  | set (s : StatisticsCalculator) (vs : List ℤ) : Step s (set_data s vs)
  | add (s : StatisticsCalculator) (v : ℤ) : Step s (add_value s v)
  | adds (s : StatisticsCalculator) (vs : List ℤ) : Step s (add_values s vs)
  | clear (s : StatisticsCalculator) : Step s (clear_data s)
  | readMean (s : StatisticsCalculator) : Step s (mean s).2
  | readMedian (s : StatisticsCalculator) : Step s (median s).2
  | readMode (s : StatisticsCalculator) : Step s (mode s).2
  | readStd (s : StatisticsCalculator) (population : Bool) :
      Step s (standard_deviation s population).2
  | readRange (s : StatisticsCalculator) : Step s (range s).2
  | readSummary (s : StatisticsCalculator) : Step s (summary s).2

/-- States reachable from a constructor call by public API calls. -/
inductive Reachable : StatisticsCalculator → Prop
  | init (data : Option (List ℤ)) : Reachable (init data)
  | step {s s' : StatisticsCalculator} : Reachable s → Step s s' → Reachable s'

/-! ### Facts about `pySorted` -/

theorem pySorted_sorted (l : List ℤ) : (pySorted l).Sorted (· ≤ ·) :=
  List.sorted_insertionSort _ l

theorem pySorted_perm (l : List ℤ) : (pySorted l).Perm l :=
  List.perm_insertionSort _ l

theorem mem_pySorted {x : ℤ} {l : List ℤ} : x ∈ pySorted l ↔ x ∈ l :=
  (pySorted_perm l).mem_iff

theorem pySorted_ne_nil {l : List ℤ} (h : l ≠ []) : pySorted l ≠ [] := by
  intro h0
  have hp := pySorted_perm l
  rw [h0] at hp
  exact h hp.symm.eq_nil

theorem length_pySorted (l : List ℤ) : (pySorted l).length = l.length :=
  (pySorted_perm l).length_eq

theorem pySorted_headD_mem {l : List ℤ} (h : l ≠ []) : (pySorted l).headD 0 ∈ l := by
  cases hp : pySorted l with
  | nil => exact absurd hp (pySorted_ne_nil h)
  | cons a t =>
    have ha : a ∈ pySorted l := by rw [hp]; exact List.mem_cons_self a t
    simpa using mem_pySorted.mp ha

theorem pySorted_headD_le {l : List ℤ} {x : ℤ} (hx : x ∈ l) :
    (pySorted l).headD 0 ≤ x := by
  have hne : l ≠ [] := fun h0 => by simp [h0] at hx
  cases hp : pySorted l with
  | nil => exact absurd hp (pySorted_ne_nil hne)
  | cons a t =>
    have hx' : x ∈ a :: t := by rw [← hp]; exact mem_pySorted.mpr hx
    have hs : (a :: t).Sorted (· ≤ ·) := by rw [← hp]; exact pySorted_sorted l
    rcases List.mem_cons.mp hx' with rfl | hxt
    · simp
    · simpa using List.rel_of_sorted_cons hs x hxt

theorem sorted_le_getLastD (t : List ℤ) :
    ∀ d : ℤ, t.Sorted (· ≤ ·) → ∀ x ∈ t, x ≤ t.getLastD d := by
  induction t with
  | nil => intro d _ x hx; exact absurd hx (List.not_mem_nil x)
  | cons a t ih =>
    intro d hs x hx
    rw [List.getLastD_cons]
    rcases List.mem_cons.mp hx with rfl | hxt
    · cases t with
      | nil => simp
      | cons b u =>
        have hb : x ≤ b := List.rel_of_sorted_cons hs b (List.mem_cons_self b u)
        exact le_trans hb (ih x hs.of_cons b (List.mem_cons_self b u))
    · exact ih a hs.of_cons x hxt

theorem getLastD_mem (l : List ℤ) : ∀ d : ℤ, l ≠ [] → l.getLastD d ∈ l := by
  induction l with
  | nil => intro d h; exact absurd rfl h
  | cons a t ih =>
    intro d _
    rw [List.getLastD_cons]
    cases t with
    | nil => simp
    | cons b u => exact List.mem_cons_of_mem a (ih a (by simp))

theorem pySorted_getLastD_mem {l : List ℤ} (h : l ≠ []) : (pySorted l).getLastD 0 ∈ l :=
  mem_pySorted.mp (getLastD_mem _ 0 (pySorted_ne_nil h))

theorem le_pySorted_getLastD {l : List ℤ} {x : ℤ} (hx : x ∈ l) :
    x ≤ (pySorted l).getLastD 0 :=
  sorted_le_getLastD _ 0 (pySorted_sorted l) x (mem_pySorted.mpr hx)

/-! ### Facts about `maxFreq` and `modeList` -/

theorem le_foldr_max {n : ℕ} {ns : List ℕ} (h : n ∈ ns) : n ≤ ns.foldr max 0 := by
  induction ns with
  | nil => simp at h
  | cons a t ih =>
    rcases List.mem_cons.mp h with rfl | ht
    · exact le_max_left _ _
    · exact le_trans (ih ht) (le_max_right _ _)

theorem foldr_max_mem (ns : List ℕ) (h : ns ≠ []) : ns.foldr max 0 ∈ ns := by
  induction ns with
  | nil => exact absurd rfl h
  | cons a t ih =>
    cases t with
    | nil => simp
    | cons b u =>
      rcases max_choice a ((b :: u).foldr max 0) with hm | hm
      · rw [List.foldr_cons, hm]; exact List.mem_cons_self _ _
      · rw [List.foldr_cons, hm]; exact List.mem_cons_of_mem a (ih (by simp))

theorem count_le_maxFreq {l : List ℤ} {x : ℤ} (hx : x ∈ l) : l.count x ≤ maxFreq l :=
  le_foldr_max (List.mem_map_of_mem _ hx)

theorem maxFreq_attained {l : List ℤ} (h : l ≠ []) :
    ∃ x ∈ l, l.count x = maxFreq l := by
  have hmem := foldr_max_mem (l.map fun x => l.count x) (by simpa using h)
  rcases List.mem_map.mp hmem with ⟨x, hx, hcx⟩
  exact ⟨x, hx, hcx⟩

theorem mem_modeList {l : List ℤ} {x : ℤ} :
    x ∈ modeList l ↔ x ∈ l ∧ l.count x = maxFreq l := by
  unfold modeList
  rw [mem_pySorted, List.mem_filter, List.mem_dedup]
  simp

theorem modeList_ne_nil {l : List ℤ} (h : l ≠ []) : modeList l ≠ [] := by
  rcases maxFreq_attained h with ⟨x, hx, hcx⟩
  have hm : x ∈ modeList l := mem_modeList.mpr ⟨hx, hcx⟩
  exact fun h0 => by rw [h0] at hm; exact List.not_mem_nil x hm

theorem modeList_nodup (l : List ℤ) : (modeList l).Nodup :=
  (pySorted_perm _).symm.nodup (l.nodup_dedup.filter _)

theorem modeList_sorted (l : List ℤ) : (modeList l).Sorted (· < ·) :=
  (pySorted_sorted _).lt_of_le (modeList_nodup l)

/-! ### Behaviour of the individual operations -/

theorem OptsOk_none {α : Type} (p : α → Prop) : OptsOk none p := fun _ h => nomatch h

theorem inv_empty_cache (d : List ℤ) : Inv ⟨d, none, StatCache.empty⟩ :=
  ⟨OptsOk_none _, OptsOk_none _, OptsOk_none _, OptsOk_none _⟩

theorem inv_init (o : Option (List ℤ)) : Inv (init o) := inv_empty_cache _

theorem inv_set_data (s : StatisticsCalculator) (vs : List ℤ) : Inv (set_data s vs) :=
  inv_empty_cache _

theorem inv_add_value (s : StatisticsCalculator) (v : ℤ) : Inv (add_value s v) :=
  inv_empty_cache _

theorem inv_add_values (s : StatisticsCalculator) (vs : List ℤ) : Inv (add_values s vs) :=
  inv_empty_cache _

theorem inv_clear_data (s : StatisticsCalculator) : Inv (clear_data s) :=
  inv_empty_cache _

theorem get_sorted_data_data (s : StatisticsCalculator) :
    (get_sorted_data s).2.data = s.data := by
  cases h : s.sorted_data <;> simp [get_sorted_data, h]

theorem get_sorted_data_cache (s : StatisticsCalculator) :
    (get_sorted_data s).2.cache = s.cache := by
  cases h : s.sorted_data <;> simp [get_sorted_data, h]

theorem get_sorted_data_fst (s : StatisticsCalculator) (h : Inv s) :
    (get_sorted_data s).1 = pySorted s.data := by
  cases hsd : s.sorted_data with
  | none => simp [get_sorted_data, hsd]
  | some sd => simpa [get_sorted_data, hsd] using h.1 sd hsd

theorem get_sorted_data_inv (s : StatisticsCalculator) (h : Inv s) :
    Inv (get_sorted_data s).2 := by
  cases hsd : s.sorted_data with
  | some sd => simpa [get_sorted_data, hsd] using h
  | none =>
    simp only [get_sorted_data, hsd]
    exact ⟨fun sd hsd' => by cases Option.some.inj hsd'; rfl,
           h.2.1, h.2.2.1, h.2.2.2⟩

theorem mean_data (s : StatisticsCalculator) : (mean s).2.data = s.data := by
  unfold mean
  cases s.cache.mean with
  | some m => rfl
  | none => by_cases hd : s.data = [] <;> simp [hd]

theorem mean_fst (s : StatisticsCalculator) (h : Inv s) :
    (mean s).1 = if s.data = [] then .error meanEmptyErr else .ok (freshMean s.data) := by
  cases hc : s.cache.mean with
  | some m =>
    obtain ⟨hne, hm⟩ := h.2.1 m hc
    simp [mean, hc, hne, hm]
  | none => simp only [mean, hc]; split <;> rfl

theorem mean_inv (s : StatisticsCalculator) (h : Inv s) : Inv (mean s).2 := by
  cases hc : s.cache.mean with
  | some m => simpa [mean, hc] using h
  | none =>
    by_cases hd : s.data = []
    · simpa [mean, hc, hd] using h
    · simp only [mean, hc, hd, if_neg, ite_false]
      exact ⟨h.1, fun m hm => by cases Option.some.inj hm; exact ⟨hd, rfl⟩,
             h.2.2.1, h.2.2.2⟩

theorem median_data (s : StatisticsCalculator) : (median s).2.data = s.data := by
  unfold median
  cases s.cache.median with
  | some m => rfl
  | none =>
    by_cases hd : s.data = [] <;> simp [hd, get_sorted_data_data]

theorem median_fst (s : StatisticsCalculator) (h : Inv s) :
    (median s).1 =
      if s.data = [] then .error medianEmptyErr else .ok (freshMedian s.data) := by
  cases hc : s.cache.median with
  | some m =>
    obtain ⟨hne, hm⟩ := h.2.2.1 m hc
    simp [median, hc, hne, hm]
  | none =>
    by_cases hd : s.data = []
    · simp [median, hc, hd]
    · simp [median, hc, hd, get_sorted_data_fst s h, freshMedian]

theorem median_inv (s : StatisticsCalculator) (h : Inv s) : Inv (median s).2 := by
  cases hc : s.cache.median with
  | some m => simpa [median, hc] using h
  | none =>
    by_cases hd : s.data = []
    · simpa [median, hc, hd] using h
    · have h2 := get_sorted_data_inv s h
      have hdata := get_sorted_data_data s
      have hcache := get_sorted_data_cache s
      have hfst := get_sorted_data_fst s h
      simp only [median, hc, hd, if_neg, ite_false]
      refine ⟨?_, ?_, ?_, ?_⟩
      · intro sd hsd
        have := h2.1 sd (by simpa using hsd)
        simpa [hdata] using this
      · intro mv hmv
        have := h2.2.1 mv (by simpa [hcache] using hmv)
        simpa [hdata] using this
      · intro mv hmv
        have hmv' : medianOfSorted (get_sorted_data s).1 = mv := by
          simpa using Option.some.inj hmv
        refine ⟨by simpa [hdata] using hd, ?_⟩
        simp [hdata, ← hmv', hfst, freshMedian]
      · intro mv hmv
        have := h2.2.2.2 mv (by simpa [hcache] using hmv)
        simpa [hdata] using this

theorem mode_data (s : StatisticsCalculator) : (mode s).2.data = s.data := by
  unfold mode
  cases s.cache.mode with
  | some m => rfl
  | none => by_cases hd : s.data = [] <;> simp [hd]

theorem mode_fst (s : StatisticsCalculator) (h : Inv s) :
    (mode s).1 =
      if s.data = [] then .error modeEmptyErr else .ok (modeList s.data) := by
  cases hc : s.cache.mode with
  | some m =>
    obtain ⟨hne, hm⟩ := h.2.2.2 m hc
    simp [mode, hc, hne, hm]
  | none => simp only [mode, hc]; split <;> rfl

theorem mode_inv (s : StatisticsCalculator) (h : Inv s) : Inv (mode s).2 := by
  cases hc : s.cache.mode with
  | some m => simpa [mode, hc] using h
  | none =>
    by_cases hd : s.data = []
    · simpa [mode, hc, hd] using h
    · simp only [mode, hc, hd, if_neg, ite_false]
      exact ⟨h.1, h.2.1, h.2.2.1,
             fun m hm => by cases Option.some.inj hm; exact ⟨hd, rfl⟩⟩

theorem stdDevVariance_data (s : StatisticsCalculator) (pop : Bool) :
    (stdDevVariance s pop).2.data = s.data := by
  unfold stdDevVariance
  by_cases hd : s.data = []
  · simp [hd]
  · simp only [hd, ite_false, if_neg]
    split
    · rfl
    · split
      · rfl
      · rcases hm : mean s with ⟨r, s1⟩
        have := mean_data s
        rw [hm] at this
        cases r <;> simpa using this

theorem stdDevVariance_inv (s : StatisticsCalculator) (pop : Bool) (h : Inv s) :
    Inv (stdDevVariance s pop).2 := by
  unfold stdDevVariance
  by_cases hd : s.data = []
  · simpa [hd] using h
  · simp only [hd, ite_false, if_neg]
    split
    · exact h
    · split
      · exact h
      · rcases hm : mean s with ⟨r, s1⟩
        have := mean_inv s h
        rw [hm] at this
        cases r <;> simpa using this

theorem stdDevVariance_fst (s : StatisticsCalculator) (pop : Bool) (h : Inv s) :
    (stdDevVariance s pop).1 =
      if s.data = [] then .error stdEmptyErr
      else if pop = false ∧ s.data.length < 2 then .error stdFewErr
      else .ok (varianceSum s.data (freshMean s.data) /
                (if pop then (s.data.length : ℚ) else (s.data.length : ℚ) - 1)) := by
  by_cases hd : s.data = []
  · simp [stdDevVariance, hd]
  · have hn : s.data.length ≠ 0 := fun h0 => hd (List.length_eq_zero.mp h0)
    have hguard : ¬(pop = true ∧ s.data.length = 0) := fun hg => hn hg.2
    by_cases hf : pop = false ∧ s.data.length < 2
    · simp [stdDevVariance, hd, hguard, hf]
    · have hmf := mean_fst s h
      rw [if_neg hd] at hmf
      rcases hm : mean s with ⟨r, s1⟩
      rw [hm] at hmf
      have hs1 : s1.data = s.data := by
        have := mean_data s; rw [hm] at this; exact this
      simp only at hmf
      subst hmf
      simp [stdDevVariance, hd, hguard, hf, hm, hs1]

theorem standard_deviation_snd (s : StatisticsCalculator) (pop : Bool) :
    (standard_deviation s pop).2 = (stdDevVariance s pop).2 := by
  unfold standard_deviation
  rcases h : stdDevVariance s pop with ⟨r, s1⟩
  cases r <;> simp

theorem standard_deviation_fst (s : StatisticsCalculator) (pop : Bool) :
    (standard_deviation s pop).1 =
      match (stdDevVariance s pop).1 with
      | .ok v => .ok (Real.sqrt (v : ℝ))
      | .error e => .error e := by
  unfold standard_deviation
  rcases h : stdDevVariance s pop with ⟨r, s1⟩
  cases r <;> simp

theorem standard_deviation_data (s : StatisticsCalculator) (pop : Bool) :
    (standard_deviation s pop).2.data = s.data := by
  rw [standard_deviation_snd]; exact stdDevVariance_data s pop

theorem standard_deviation_inv (s : StatisticsCalculator) (pop : Bool) (h : Inv s) :
    Inv (standard_deviation s pop).2 := by
  rw [standard_deviation_snd]; exact stdDevVariance_inv s pop h

theorem range_data (s : StatisticsCalculator) : (range s).2.data = s.data := by
  unfold range
  by_cases hd : s.data = [] <;> simp [hd, get_sorted_data_data]

theorem range_inv (s : StatisticsCalculator) (h : Inv s) : Inv (range s).2 := by
  unfold range
  by_cases hd : s.data = []
  · simpa [hd] using h
  · simpa [hd] using get_sorted_data_inv s h

theorem range_fst (s : StatisticsCalculator) (h : Inv s) :
    (range s).1 =
      if s.data = [] then .error rangeEmptyErr
      else .ok ((pySorted s.data).getLastD 0 - (pySorted s.data).headD 0) := by
  unfold range
  by_cases hd : s.data = [] <;> simp [hd, get_sorted_data_fst s h]

theorem tryStat_ok {α : Type} (v : α) (s : StatisticsCalculator) :
    tryStat (.ok v, s) = (.ok (some v), s) := rfl

theorem tryStat_valueError {α : Type} {e : PyErr} (s : StatisticsCalculator)
    (h : e.exnClass = "ValueError") :
    tryStat (α := α) (.error e, s) = (.ok none, s) := by simp [tryStat, h]

/-! ### Facts about the variance -/

theorem varianceSum_nonneg (l : List ℤ) (m : ℚ) : 0 ≤ varianceSum l m := by
  apply List.sum_nonneg
  intro x hx
  rcases List.mem_map.mp hx with ⟨y, _, rfl⟩
  positivity

theorem freshMean_const {l : List ℤ} {c : ℤ} (hne : l ≠ [])
    (h : ∀ x ∈ l, x = c) : freshMean l = c := by
  have hsum : l.sum = l.length • c := List.sum_eq_card_nsmul l c h
  have hlen : (l.length : ℚ) ≠ 0 := by
    simpa using fun h0 => hne (List.length_eq_zero.mp h0)
  rw [freshMean, hsum]
  field_simp

theorem varianceSum_const {l : List ℤ} {c : ℤ} (h : ∀ x ∈ l, x = c) :
    varianceSum l (c : ℚ) = 0 := by
  apply List.sum_eq_zero
  intro x hx
  rcases List.mem_map.mp hx with ⟨y, hy, rfl⟩
  rw [h y hy]
  ring

/-! ### Computation of the `try`/`except` blocks of `summary()` -/

theorem tryStat_mean (s : StatisticsCalculator) (h : Inv s) :
    tryStat (mean s) =
      (.ok (if s.data = [] then none else some (freshMean s.data)), (mean s).2) := by
  rcases hm : mean s with ⟨r, s1⟩
  have hf := mean_fst s h
  rw [hm] at hf
  simp only at hf
  by_cases hd : s.data = []
  · rw [if_pos hd] at hf; subst hf; simp [tryStat, hd, meanEmptyErr]
  · rw [if_neg hd] at hf; subst hf; simp [tryStat, hd]

theorem tryStat_median (s : StatisticsCalculator) (h : Inv s) :
    tryStat (median s) =
      (.ok (if s.data = [] then none else some (freshMedian s.data)), (median s).2) := by
  rcases hm : median s with ⟨r, s1⟩
  have hf := median_fst s h
  rw [hm] at hf
  simp only at hf
  by_cases hd : s.data = []
  · rw [if_pos hd] at hf; subst hf; simp [tryStat, hd, medianEmptyErr]
  · rw [if_neg hd] at hf; subst hf; simp [tryStat, hd]

theorem tryStat_mode (s : StatisticsCalculator) (h : Inv s) :
    tryStat (mode s) =
      (.ok (if s.data = [] then none else some (modeList s.data)), (mode s).2) := by
  rcases hm : mode s with ⟨r, s1⟩
  have hf := mode_fst s h
  rw [hm] at hf
  simp only at hf
  by_cases hd : s.data = []
  · rw [if_pos hd] at hf; subst hf; simp [tryStat, hd, modeEmptyErr]
  · rw [if_neg hd] at hf; subst hf; simp [tryStat, hd]

theorem tryStat_std (s : StatisticsCalculator) (pop : Bool) (h : Inv s) :
    tryStat (standard_deviation s pop) =
      (.ok (if s.data = [] ∨ (pop = false ∧ s.data.length < 2) then none
            else some (Real.sqrt ((varianceSum s.data (freshMean s.data) /
                  (if pop then (s.data.length : ℚ) else (s.data.length : ℚ) - 1) : ℚ)))),
       (standard_deviation s pop).2) := by
  rcases hm : standard_deviation s pop with ⟨r, s1⟩
  have hf := standard_deviation_fst s pop
  rw [hm] at hf
  simp only at hf
  rw [stdDevVariance_fst s pop h] at hf
  by_cases hd : s.data = []
  · rw [if_pos hd] at hf
    simp only at hf
    subst hf
    simp [tryStat, hd, stdEmptyErr]
  · rw [if_neg hd] at hf
    by_cases hg : pop = false ∧ s.data.length < 2
    · rw [if_pos hg] at hf
      simp only at hf
      subst hf
      simp [tryStat, hd, hg, stdFewErr]
    · rw [if_neg hg] at hf
      simp only at hf
      subst hf
      simp [tryStat, hd, hg]

theorem tryStat_range (s : StatisticsCalculator) (h : Inv s) :
    tryStat (range s) =
      (.ok (if s.data = [] then none
            else some ((pySorted s.data).getLastD 0 - (pySorted s.data).headD 0)),
       (range s).2) := by
  rcases hm : range s with ⟨r, s1⟩
  have hf := range_fst s h
  rw [hm] at hf
  simp only at hf
  by_cases hd : s.data = []
  · rw [if_pos hd] at hf; subst hf; simp [tryStat, hd, rangeEmptyErr]
  · rw [if_neg hd] at hf; subst hf; simp [tryStat, hd]

/-! ### Characterization of `summary()` -/

theorem summary_spec (s : StatisticsCalculator) (h : Inv s) :
    ∃ s', Inv s' ∧ s'.data = s.data ∧
      summary s = (.ok
        { mean := if s.data = [] then none else some (freshMean s.data)
          median := if s.data = [] then none else some (freshMedian s.data)
          mode := if s.data = [] then none else some (modeList s.data)
          std_dev_sample := if s.data.length < 2 then none
            else some (Real.sqrt ((varianceSum s.data (freshMean s.data) /
                        ((s.data.length : ℚ) - 1) : ℚ)))
          std_dev_population := if s.data = [] then none
            else some (Real.sqrt ((varianceSum s.data (freshMean s.data) /
                        (s.data.length : ℚ) : ℚ)))
          range := if s.data = [] then none
            else some ((pySorted s.data).getLastD 0 - (pySorted s.data).headD 0)
          count := s.data.length
          min := if s.data = [] then none else some ((pySorted s.data).headD 0)
          max := if s.data = [] then none else some ((pySorted s.data).getLastD 0) },
        s') := by
  have h1 : Inv (mean s).2 := mean_inv s h
  have d1 : (mean s).2.data = s.data := mean_data s
  have h2 : Inv (median (mean s).2).2 := median_inv _ h1
  have d2 : (median (mean s).2).2.data = s.data := by rw [median_data, d1]
  have h3 : Inv (mode (median (mean s).2).2).2 := mode_inv _ h2
  have d3 : (mode (median (mean s).2).2).2.data = s.data := by rw [mode_data, d2]
  have h4 : Inv (standard_deviation (mode (median (mean s).2).2).2 false).2 :=
    standard_deviation_inv _ false h3
  have d4 : (standard_deviation (mode (median (mean s).2).2).2 false).2.data = s.data := by
    rw [standard_deviation_data, d3]
  have h5 : Inv (standard_deviation
      (standard_deviation (mode (median (mean s).2).2).2 false).2 true).2 :=
    standard_deviation_inv _ true h4
  have d5 : (standard_deviation
      (standard_deviation (mode (median (mean s).2).2).2 false).2 true).2.data = s.data := by
    rw [standard_deviation_data, d4]
  have h6 : Inv (range (standard_deviation
      (standard_deviation (mode (median (mean s).2).2).2 false).2 true).2).2 :=
    range_inv _ h5
  have d6 : (range (standard_deviation
      (standard_deviation (mode (median (mean s).2).2).2 false).2 true).2).2.data = s.data := by
    rw [range_data, d5]
  by_cases hd : s.data = []
  · refine ⟨_, h6, d6, ?_⟩
    unfold summary
    rw [tryStat_mean s h]
    dsimp only
    rw [tryStat_median _ h1]
    dsimp only
    rw [tryStat_mode _ h2]
    dsimp only
    rw [tryStat_std _ false h3]
    dsimp only
    rw [tryStat_std _ true h4]
    dsimp only
    rw [tryStat_range _ h5]
    dsimp only
    simp [d1, d2, d3, d4, d5, d6, hd]
  · refine ⟨_, get_sorted_data_inv _ h6, by rw [get_sorted_data_data, d6], ?_⟩
    unfold summary
    rw [tryStat_mean s h]
    dsimp only
    rw [tryStat_median _ h1]
    dsimp only
    rw [tryStat_mode _ h2]
    dsimp only
    rw [tryStat_std _ false h3]
    dsimp only
    rw [tryStat_std _ true h4]
    dsimp only
    rw [tryStat_range _ h5]
    dsimp only
    simp only [d1, d2, d3, d4, d5, d6, get_sorted_data_fst _ h6, get_sorted_data_data]
    simp [hd, d6, get_sorted_data_fst _ h6, get_sorted_data_data]

theorem summary_inv (s : StatisticsCalculator) (h : Inv s) : Inv (summary s).2 := by
  rcases summary_spec s h with ⟨s', hs', _, heq⟩
  rw [heq]
  exact hs'

theorem step_inv {s s' : StatisticsCalculator} (h : Inv s) (hs : Step s s') : Inv s' := by
  cases hs with
  | set vs => exact inv_set_data s vs
  | add v => exact inv_add_value s v
  | adds vs => exact inv_add_values s vs
  | clear => exact inv_clear_data s
  | readMean => exact mean_inv s h
  | readMedian => exact median_inv s h
  | readMode => exact mode_inv s h
  | readStd pop => exact standard_deviation_inv s pop h
  | readRange => exact range_inv s h
  | readSummary => exact summary_inv s h

theorem reachable_inv {s : StatisticsCalculator} (h : Reachable s) : Inv s := by
  induction h with
  | init o => exact inv_init o
  | step _ hstep ih => exact step_inv ih hstep

/-! ### Failed reader calls leave the state untouched -/

theorem mean_error_snd (s : StatisticsCalculator) :
    ∀ e, (mean s).1 = .error e → (mean s).2 = s := by
  intro e he
  cases hc : s.cache.mean with
  | some m => simp [mean, hc] at he
  | none =>
    by_cases hd : s.data = []
    · simp [mean, hc, hd]
    · simp [mean, hc, hd] at he

theorem median_error_snd (s : StatisticsCalculator) :
    ∀ e, (median s).1 = .error e → (median s).2 = s := by
  intro e he
  cases hc : s.cache.median with
  | some m => simp [median, hc] at he
  | none =>
    by_cases hd : s.data = []
    · simp [median, hc, hd]
    · simp [median, hc, hd] at he

theorem mode_error_snd (s : StatisticsCalculator) :
    ∀ e, (mode s).1 = .error e → (mode s).2 = s := by
  intro e he
  cases hc : s.cache.mode with
  | some m => simp [mode, hc] at he
  | none =>
    by_cases hd : s.data = []
    · simp [mode, hc, hd]
    · simp [mode, hc, hd] at he

theorem stdDevVariance_error_snd (s : StatisticsCalculator) (pop : Bool) :
    ∀ e, (stdDevVariance s pop).1 = .error e → (stdDevVariance s pop).2 = s := by
  intro e he
  unfold stdDevVariance at he ⊢
  by_cases hd : s.data = []
  · simp [hd]
  · by_cases hg : pop = true ∧ s.data.length = 0
    · simp [hd, hg] at he
    · by_cases hf : pop = false ∧ s.data.length < 2
      · simp [hd, hg, hf]
      · rcases hm : mean s with ⟨r, s1⟩
        cases r with
        | ok m => simp [hd, hg, hf, hm] at he
        | error e2 =>
          have h2 : (mean s).2 = s := mean_error_snd s e2 (by rw [hm])
          rw [hm] at h2
          simp only at h2
          simp [hd, hg, hf, hm, h2]

theorem range_error_snd (s : StatisticsCalculator) :
    ∀ e, (range s).1 = .error e → (range s).2 = s := by
  intro e he
  unfold range at he ⊢
  by_cases hd : s.data = []
  · simp [hd]
  · simp [hd] at he

theorem standard_deviation_error_snd (s : StatisticsCalculator) (pop : Bool) :
    ∀ e, (standard_deviation s pop).1 = .error e → (standard_deviation s pop).2 = s := by
  intro e he
  rw [standard_deviation_fst] at he
  rw [standard_deviation_snd]
  rcases hv : (stdDevVariance s pop).1 with e2 | v
  · rw [hv] at he
    simp only at he
    obtain rfl : e2 = e := by simpa using he
    exact stdDevVariance_error_snd s pop e2 hv
  · rw [hv] at he
    simp at he

/-! ## The claims -/

/-- Claim C1: cache-consistency invariant.  Every reachable state of the
calculator satisfies `Inv` (a present sorted view equals the ascending sort of
the current data, and every cached statistic equals the statistic recomputed
fresh from the current data); every mutator (`set_data`, `add_value`,
`add_values`, `clear_data`) clears both the sorted view and the whole cache;
and on any state satisfying the invariant every reader returns the value
computed from the current (post-mutation) data, never a stale cached one. -/
theorem C1_cache_consistency :
    (∀ s, Reachable s → Inv s) ∧
    (∀ s vs, (set_data s vs).sorted_data = none ∧ (set_data s vs).cache = StatCache.empty) ∧
    (∀ s v, (add_value s v).sorted_data = none ∧ (add_value s v).cache = StatCache.empty) ∧
    (∀ s vs, (add_values s vs).sorted_data = none ∧ (add_values s vs).cache = StatCache.empty) ∧
    (∀ s, (clear_data s).sorted_data = none ∧ (clear_data s).cache = StatCache.empty) ∧
    (∀ s, Inv s → s.data ≠ [] →
      (mean s).1 = .ok (freshMean s.data) ∧
      (median s).1 = .ok (freshMedian s.data) ∧
      (mode s).1 = .ok (modeList s.data) ∧
      (range s).1 = .ok ((pySorted s.data).getLastD 0 - (pySorted s.data).headD 0) ∧
      (∀ pop, (stdDevVariance s pop).1 =
        if pop = false ∧ s.data.length < 2 then .error stdFewErr
        else .ok (varianceSum s.data (freshMean s.data) /
                  (if pop then (s.data.length : ℚ) else (s.data.length : ℚ) - 1)))) := by
  refine ⟨fun s => reachable_inv, fun s vs => ⟨rfl, rfl⟩, fun s v => ⟨rfl, rfl⟩,
    fun s vs => ⟨rfl, rfl⟩, fun s => ⟨rfl, rfl⟩, fun s h hne => ?_⟩
  rw [mean_fst s h, median_fst s h, mode_fst s h, range_fst s h]
  refine ⟨by simp [hne], by simp [hne], by simp [hne], by simp [hne], fun pop => ?_⟩
  rw [stdDevVariance_fst s pop h]
  simp [hne]

/-- Claim C1, witness: after a constructor call followed by a `median()` call
(which memoizes both the sorted view and the median) the state is reachable
and satisfies the invariant. -/
theorem C1_cache_consistency_witness :
    Reachable ((median (init (some [3, 1, 2]))).2) ∧
    Inv ((median (init (some [3, 1, 2]))).2) := by
  have hr : Reachable ((median (init (some [3, 1, 2]))).2) :=
    Reachable.step (Reachable.init (some [3, 1, 2])) (Step.readMedian _)
  exact ⟨hr, C1_cache_consistency.1 _ hr⟩

/-- Claim C2, counterexample: the code raises the *same* exception type
(`ValueError`) for the empty-data failure and for the insufficient-data
failure of sample standard deviation; the two error kinds are collapsed into
one exception type, distinguishable only by message. -/
theorem C2_counterexample :
    (mean (init (some []))).1 = .error meanEmptyErr ∧
    (standard_deviation (init (some [1])) false).1 = .error stdFewErr ∧
    meanEmptyErr.exnClass = stdFewErr.exnClass := by
  refine ⟨rfl, ?_, rfl⟩
  rw [standard_deviation_fst]
  have hv : (stdDevVariance (init (some [1])) false).1 = .error stdFewErr := by decide
  rw [hv]

/-- Claim C2, amended: every statistic reader raises a `ValueError` with an
"is empty"-style message on empty data; sample standard deviation with N = 1
raises a `ValueError` with a distinct insufficient-data message; the two
failure kinds carry distinct messages (so a caller can tell them apart by
message) but the same exception class `ValueError`. -/
theorem C2_two_error_kinds (s : StatisticsCalculator) (h : Inv s) :
    (s.data = [] →
      (mean s).1 = .error meanEmptyErr ∧
      (median s).1 = .error medianEmptyErr ∧
      (mode s).1 = .error modeEmptyErr ∧
      (standard_deviation s false).1 = .error stdEmptyErr ∧
      (standard_deviation s true).1 = .error stdEmptyErr ∧
      (range s).1 = .error rangeEmptyErr) ∧
    (s.data.length = 1 → (standard_deviation s false).1 = .error stdFewErr) ∧
    stdFewErr.exnClass = "ValueError" ∧
    meanEmptyErr.exnClass = "ValueError" ∧ medianEmptyErr.exnClass = "ValueError" ∧
    modeEmptyErr.exnClass = "ValueError" ∧ stdEmptyErr.exnClass = "ValueError" ∧
    rangeEmptyErr.exnClass = "ValueError" ∧
    stdFewErr ≠ stdEmptyErr ∧ stdFewErr ≠ meanEmptyErr := by
  refine ⟨fun hd => ?_, fun h1 => ?_, rfl, rfl, rfl, rfl, rfl, rfl, by decide, by decide⟩
  · rw [mean_fst s h, median_fst s h, mode_fst s h, range_fst s h,
      standard_deviation_fst, standard_deviation_fst,
      stdDevVariance_fst s false h, stdDevVariance_fst s true h]
    simp [hd]
  · have hne : s.data ≠ [] := by
      intro h0; rw [h0] at h1; simp at h1
    rw [standard_deviation_fst, stdDevVariance_fst s false h]
    simp [hne, h1]

/-- Claim C2 amended, witness: on the singleton dataset `[7]` the sample
standard deviation fails with the (ValueError-class) insufficient-data
error. -/
theorem C2_two_error_kinds_witness :
    Inv (init (some [7])) ∧ (init (some [7])).data.length = 1 ∧
    (standard_deviation (init (some [7])) false).1 = .error stdFewErr := by
  have h : Inv (init (some [7])) := by decide
  exact ⟨h, rfl, (C2_two_error_kinds _ h).2.1 rfl⟩

/-- Claim C4: on a state satisfying the invariant, `median()` fails with the
empty-data error on empty data; on non-empty data of even length it returns
the average of the two middle values of the ascending sort, and on odd length
the single middle value; the even-count scenario `[10, 20, ..., 100]` yields
`55`. -/
theorem C4_median (s : StatisticsCalculator) (h : Inv s) :
    (s.data = [] → (median s).1 = .error medianEmptyErr) ∧
    (s.data ≠ [] →
      (s.data.length % 2 = 0 →
        (median s).1 = .ok (((((pySorted s.data).getD (s.data.length / 2 - 1) 0 : ℤ) : ℚ) +
          (((pySorted s.data).getD (s.data.length / 2) 0 : ℤ) : ℚ)) / 2)) ∧
      (s.data.length % 2 = 1 →
        (median s).1 = .ok ((((pySorted s.data).getD (s.data.length / 2) 0 : ℤ) : ℚ)))) ∧
    (median (init (some [10, 20, 30, 40, 50, 60, 70, 80, 90, 100]))).1 = .ok 55 := by
  refine ⟨fun hd => by rw [median_fst s h]; simp [hd],
    fun hne => ⟨fun heven => ?_, fun hodd => ?_⟩, ?_⟩
  · rw [median_fst s h]
    simp [hne, freshMedian, medianOfSorted, length_pySorted, heven]
  · rw [median_fst s h]
    have hno : ¬ s.data.length % 2 = 0 := by omega
    simp [hne, freshMedian, medianOfSorted, length_pySorted, hno]
  · have h0 : Inv (init (some [10, 20, 30, 40, 50, 60, 70, 80, 90, 100])) := by decide
    have hps : pySorted [10, 20, 30, 40, 50, 60, 70, 80, 90, 100] =
        [10, 20, 30, 40, 50, 60, 70, 80, 90, 100] := by decide
    have hfm : freshMedian [10, 20, 30, 40, 50, 60, 70, 80, 90, 100] = 55 := by
      rw [freshMedian, hps]
      show ((((50 : ℤ) : ℚ)) + (((60 : ℤ) : ℚ))) / 2 = 55
      norm_num
    rw [median_fst _ h0, if_neg (by decide),
      show (init (some [10, 20, 30, 40, 50, 60, 70, 80, 90, 100])).data =
        [10, 20, 30, 40, 50, 60, 70, 80, 90, 100] from rfl, hfm]

/-- Claim C4, witness: `[1, 3, 2]` has odd length 3, and `median()` returns
the middle element of the sorted view. -/
theorem C4_median_witness :
    Inv (init (some [1, 3, 2])) ∧ (init (some [1, 3, 2])).data ≠ [] ∧
    (init (some [1, 3, 2])).data.length % 2 = 1 ∧
    (median (init (some [1, 3, 2]))).1 =
      .ok ((((pySorted (init (some [1, 3, 2])).data).getD
        ((init (some [1, 3, 2])).data.length / 2) 0 : ℤ) : ℚ)) := by
  have h : Inv (init (some [1, 3, 2])) := by decide
  have hne : (init (some [1, 3, 2])).data ≠ [] := by decide
  exact ⟨h, hne, rfl, ((C4_median _ h).2.1 hne).2 rfl⟩

/-- Claim C5: on a state satisfying the invariant, `mode()` fails with the
empty-data error on empty data; on non-empty data it returns a non-empty,
strictly ascending, duplicate-free list containing exactly the values of
maximal multiplicity; the tie scenario `[1, 1, 2, 2, 3, 3, 4]` yields
`[1, 2, 3]`. -/
theorem C5_mode (s : StatisticsCalculator) (h : Inv s) :
    (s.data = [] → (mode s).1 = .error modeEmptyErr) ∧
    (s.data ≠ [] → ∃ M, (mode s).1 = .ok M ∧ M ≠ [] ∧
      (∀ x ∈ M, x ∈ s.data ∧ s.data.count x = maxFreq s.data) ∧
      (∀ y ∈ s.data, s.data.count y ≤ maxFreq s.data) ∧
      (∀ y ∈ s.data, s.data.count y = maxFreq s.data → y ∈ M) ∧
      M.Sorted (· < ·) ∧ M.Nodup) ∧
    (mode (init (some [1, 1, 2, 2, 3, 3, 4]))).1 = .ok [1, 2, 3] := by
  refine ⟨fun hd => by rw [mode_fst s h]; simp [hd], fun hne => ?_, by decide⟩
  rw [mode_fst s h]
  refine ⟨modeList s.data, by simp [hne], modeList_ne_nil hne, ?_, ?_, ?_,
    modeList_sorted _, modeList_nodup _⟩
  · intro x hx; exact mem_modeList.mp hx
  · intro y hy; exact count_le_maxFreq hy
  · intro y hy hc; exact mem_modeList.mpr ⟨hy, hc⟩

/-- Claim C5, witness: on `[2, 1, 2]` the mode is computed and satisfies all
the claimed properties. -/
theorem C5_mode_witness :
    Inv (init (some [2, 1, 2])) ∧ (init (some [2, 1, 2])).data ≠ [] ∧
    ∃ M, (mode (init (some [2, 1, 2]))).1 = .ok M ∧ M ≠ [] := by
  have h : Inv (init (some [2, 1, 2])) := by decide
  have hne : (init (some [2, 1, 2])).data ≠ [] := by decide
  rcases (C5_mode _ h).2.1 hne with ⟨M, hM, hMne, _⟩
  exact ⟨h, hne, M, hM, hMne⟩

/-- Claim C3: on any state satisfying the invariant, `summary()` never
raises: it returns an `ok` result whose statistic fields are `none` exactly
when the corresponding statistic fails (empty data, or fewer than two points
for sample standard deviation), whose `count` is always the data length, and
whose `min`/`max` are `None` on empty data and the smallest/largest data
elements otherwise. -/
theorem C3_summary_total (s : StatisticsCalculator) (h : Inv s) :
    ∃ sm s', summary s = (.ok sm, s') ∧
      sm.count = s.data.length ∧
      (sm.mean = none ↔ s.data = []) ∧
      (sm.median = none ↔ s.data = []) ∧
      (sm.mode = none ↔ s.data = []) ∧
      (sm.std_dev_sample = none ↔ s.data.length < 2) ∧
      (sm.std_dev_population = none ↔ s.data = []) ∧
      (sm.range = none ↔ s.data = []) ∧
      (s.data = [] → sm.count = 0 ∧ sm.min = none ∧ sm.max = none) ∧
      (s.data ≠ [] → ∃ mn mx : ℤ, sm.min = some mn ∧ sm.max = some mx ∧
        mn ∈ s.data ∧ mx ∈ s.data ∧ ∀ x ∈ s.data, mn ≤ x ∧ x ≤ mx) := by
  rcases summary_spec s h with ⟨s', hs', hd', heq⟩
  refine ⟨_, s', heq, rfl, ?_, ?_, ?_, ?_, ?_, ?_, fun hd => ?_, fun hne => ?_⟩
  · by_cases hd : s.data = [] <;> simp [hd]
  · by_cases hd : s.data = [] <;> simp [hd]
  · by_cases hd : s.data = [] <;> simp [hd]
  · by_cases hl : s.data.length < 2 <;> simp [hl]
  · by_cases hd : s.data = [] <;> simp [hd]
  · by_cases hd : s.data = [] <;> simp [hd]
  · simp [hd]
  · exact ⟨(pySorted s.data).headD 0, (pySorted s.data).getLastD 0,
      by simp [hne], by simp [hne],
      pySorted_headD_mem hne, pySorted_getLastD_mem hne,
      fun x hx => ⟨pySorted_headD_le hx, le_pySorted_getLastD hx⟩⟩

/-- Claim C3, witness: `summary()` on `[5, 1, 3]` returns `ok` with
`count = 3`. -/
theorem C3_summary_total_witness :
    Inv (init (some [5, 1, 3])) ∧
    ∃ sm s', summary (init (some [5, 1, 3])) = (.ok sm, s') ∧ sm.count = 3 := by
  have h : Inv (init (some [5, 1, 3])) := by decide
  rcases C3_summary_total _ h with ⟨sm, s', heq, hcount, _⟩
  exact ⟨h, sm, s', heq, hcount.trans rfl⟩

/-- Claim C6: on a non-empty dataset, `standard_deviation` returns the square
root of the variance, which is the sum of squared deviations from the mean
divided by N in population mode (any N ≥ 1) and by N − 1 in sample mode
(N ≥ 2); both variances are non-negative, and the population variance — and
hence the population standard deviation — is 0 when all elements are
equal. -/
theorem C6_standard_deviation (s : StatisticsCalculator) (h : Inv s)
    (hne : s.data ≠ []) :
    (standard_deviation s true).1 =
      .ok (Real.sqrt ((varianceSum s.data (freshMean s.data) /
        (s.data.length : ℚ) : ℚ))) ∧
    (2 ≤ s.data.length →
      (standard_deviation s false).1 =
        .ok (Real.sqrt ((varianceSum s.data (freshMean s.data) /
          ((s.data.length : ℚ) - 1) : ℚ)))) ∧
    0 ≤ varianceSum s.data (freshMean s.data) / (s.data.length : ℚ) ∧
    (2 ≤ s.data.length →
      0 ≤ varianceSum s.data (freshMean s.data) / ((s.data.length : ℚ) - 1)) ∧
    (∀ c : ℤ, (∀ x ∈ s.data, x = c) →
      varianceSum s.data (freshMean s.data) = 0 ∧
      (standard_deviation s true).1 = .ok 0) := by
  have hpop : (standard_deviation s true).1 =
      .ok (Real.sqrt ((varianceSum s.data (freshMean s.data) /
        (s.data.length : ℚ) : ℚ))) := by
    rw [standard_deviation_fst, stdDevVariance_fst s true h]
    simp [hne]
  refine ⟨hpop, fun h2 => ?_, ?_, fun h2 => ?_, fun c hc => ?_⟩
  · rw [standard_deviation_fst, stdDevVariance_fst s false h]
    have hnl : ¬ s.data.length < 2 := Nat.not_lt.mpr h2
    simp [hne, hnl]
  · exact div_nonneg (varianceSum_nonneg _ _) (by positivity)
  · apply div_nonneg (varianceSum_nonneg _ _)
    have hq : (2 : ℚ) ≤ (s.data.length : ℚ) := by exact_mod_cast h2
    linarith
  · have hm : freshMean s.data = (c : ℚ) := freshMean_const hne hc
    have hv : varianceSum s.data (freshMean s.data) = 0 := by
      rw [hm]; exact varianceSum_const hc
    refine ⟨hv, ?_⟩
    rw [hpop, hv]
    norm_num

/-- Claim C6, witness: on `[2, 2]` (all elements equal) the population
standard deviation is 0. -/
theorem C6_standard_deviation_witness :
    Inv (init (some [2, 2])) ∧ (init (some [2, 2])).data ≠ [] ∧
    (standard_deviation (init (some [2, 2])) true).1 = .ok 0 := by
  have h : Inv (init (some [2, 2])) := by decide
  have hne : (init (some [2, 2])).data ≠ [] := by decide
  exact ⟨h, hne, ((C6_standard_deviation _ h hne).2.2.2.2 2 (by decide)).2⟩

/-- Claim C7: on a state satisfying the invariant, `mean()` returns the exact
arithmetic average `sum(data) / len(data)` on non-empty data and fails with
the empty-data error on empty data. -/
theorem C7_mean (s : StatisticsCalculator) (h : Inv s) :
    (s.data = [] → (mean s).1 = .error meanEmptyErr) ∧
    (s.data ≠ [] →
      (mean s).1 = .ok ((s.data.sum : ℚ) / (s.data.length : ℚ))) := by
  refine ⟨fun hd => ?_, fun hne => ?_⟩ <;> rw [mean_fst s h]
  · simp [hd]
  · simp [hne, freshMean]

/-- Claim C7, witness: the mean of `[1, 2]` is its sum over its length. -/
theorem C7_mean_witness :
    Inv (init (some [1, 2])) ∧ (init (some [1, 2])).data ≠ [] ∧
    (mean (init (some [1, 2]))).1 =
      .ok (((init (some [1, 2])).data.sum : ℚ) /
        ((init (some [1, 2])).data.length : ℚ)) := by
  have h : Inv (init (some [1, 2])) := by decide
  have hne : (init (some [1, 2])).data ≠ [] := by decide
  exact ⟨h, hne, (C7_mean _ h).2 hne⟩

/-- Claim C8: on a state satisfying the invariant, `range()` fails with the
empty-data error on empty data; on non-empty data it returns `max − min`
exactly (witnessed by actual members bounding the data), and returns 0 when
all elements are equal. -/
theorem C8_range (s : StatisticsCalculator) (h : Inv s) :
    (s.data = [] → (range s).1 = .error rangeEmptyErr) ∧
    (s.data ≠ [] → ∃ mn mx : ℤ, mn ∈ s.data ∧ mx ∈ s.data ∧
      (∀ x ∈ s.data, mn ≤ x ∧ x ≤ mx) ∧ (range s).1 = .ok (mx - mn)) ∧
    (∀ c : ℤ, s.data ≠ [] → (∀ x ∈ s.data, x = c) → (range s).1 = .ok 0) := by
  refine ⟨fun hd => by rw [range_fst s h]; simp [hd], fun hne => ?_, fun c hne hc => ?_⟩
  · refine ⟨(pySorted s.data).headD 0, (pySorted s.data).getLastD 0,
      pySorted_headD_mem hne, pySorted_getLastD_mem hne,
      fun x hx => ⟨pySorted_headD_le hx, le_pySorted_getLastD hx⟩, ?_⟩
    rw [range_fst s h]
    simp [hne]
  · have h1 : (pySorted s.data).headD 0 = c := hc _ (pySorted_headD_mem hne)
    have h2 : (pySorted s.data).getLastD 0 = c := hc _ (pySorted_getLastD_mem hne)
    rw [range_fst s h, if_neg hne, h1, h2, sub_self]

/-- Claim C8, witness: the range of the constant dataset `[4, 4]` is 0. -/
theorem C8_range_witness :
    Inv (init (some [4, 4])) ∧ (init (some [4, 4])).data ≠ [] ∧
    (range (init (some [4, 4]))).1 = .ok 0 := by
  have h : Inv (init (some [4, 4])) := by decide
  have hne : (init (some [4, 4])).data ≠ [] := by decide
  exact ⟨h, hne, (C8_range _ h).2.2 4 hne (by decide)⟩

/-- Claim C9: atomicity of reader failures: whenever `mean`, `median`,
`mode`, `standard_deviation` or `range` returns an error, the state of the
calculator after the call is exactly the state before it — in particular no
cache entry and no sorted view is created by a failed computation. -/
theorem C9_reader_atomicity (s : StatisticsCalculator) (pop : Bool) :
    (∀ e, (mean s).1 = .error e → (mean s).2 = s) ∧
    (∀ e, (median s).1 = .error e → (median s).2 = s) ∧
    (∀ e, (mode s).1 = .error e → (mode s).2 = s) ∧
    (∀ e, (standard_deviation s pop).1 = .error e →
      (standard_deviation s pop).2 = s) ∧
    (∀ e, (range s).1 = .error e → (range s).2 = s) :=
  ⟨mean_error_snd s, median_error_snd s, mode_error_snd s,
   standard_deviation_error_snd s pop, range_error_snd s⟩

/-- Claim C9, witness: a failing `mean()` call on an empty calculator leaves
the state unchanged. -/
theorem C9_reader_atomicity_witness :
    (mean (init none)).1 = .error meanEmptyErr ∧ (mean (init none)).2 = init none :=
  ⟨rfl, (C9_reader_atomicity (init none) false).1 meanEmptyErr rfl⟩

/-- Claim C10: the `population and n == 0` guard in `standard_deviation` is
dead code: deleting it changes the function on no input, because an empty
dataset is rejected (with the empty-data error) before the guard is
evaluated, so `n ≥ 1` there. -/
theorem C10_dead_guard :
    ∀ (s : StatisticsCalculator) (pop : Bool),
      stdDevVariance s pop = stdDevVarianceNoGuard s pop := by
  intro s pop
  unfold stdDevVariance stdDevVarianceNoGuard
  by_cases hd : s.data = []
  · simp [hd]
  · have hg : ¬(pop = true ∧ s.data.length = 0) := by
      rintro ⟨_, h0⟩
      exact hd (List.length_eq_zero.mp h0)
    simp [hd, hg]

end StatCalc
